import Mathlib

/-!
Shallow embedding of the aws-secrets-manager microservice
(src/aws-secrets-manager.service.ts and the rotation strategies under
src/infrastructure/lambda and src/unnamed), with theorems checking the
natural-language specification against the code.

Remote calls (AWS Secrets Manager, Prisma writes, subprocess execution)
are modelled by an environment record supplying the outcome of each call
site, and each service operation additionally returns the ordered trace
of vault calls it issued.
-/

deriving instance DecidableEq for Except

namespace AwsSecretsManager

/-- The SecretType enum from the Prisma schema, as used by the service. -/
inductive SecretType where
  | RDS_CREDENTIALS
  | DOCUMENTDB_CREDENTIALS
  | AWS_API_KEY
  | GENERIC_SECRET
deriving DecidableEq, Repr

/-- isRotationSupported from aws-secrets-manager.service.ts: membership of
the type in the supportedTypes list written in the source. -/
def isRotationSupported (t : SecretType) : Bool :=
  [SecretType.RDS_CREDENTIALS, SecretType.DOCUMENTDB_CREDENTIALS,
   SecretType.AWS_API_KEY, SecretType.GENERIC_SECRET].contains t

/-- A raw error thrown by a vault (AWS SDK) or Prisma call: its JS name,
its optional Prisma error code, and its message. -/
structure VErr where
  name : String := ""
  code : Option String := none
  msg : String := ""
deriving DecidableEq, Repr

/-- Errors surfaced by the service layer. Each constructor corresponds to
one throw site in aws-secrets-manager.service.ts. -/
inductive SvcError where
  /-- NotFoundException (secret or project absent). -/
  | notFound (msg : String)
  /-- ConflictException (duplicate name, upstream already exists, busy). -/
  | conflict (msg : String)
  /-- BadRequestException: secret type does not support automatic rotation. -/
  | unsupportedType (t : SecretType)
  /-- BadRequestException: Lambda ARN is not configured in Project Settings. -/
  | lambdaArnMissing
  /-- BadRequestException: project has no AWS Secrets Manager configuration. -/
  | projectNotConfigured (projectName : String)
  /-- BadRequestException wrapping a failed enable-rotation vault call. -/
  | rotationFailed (msg : String)
  /-- BadRequestException wrapping a failed vault update call. -/
  | updateFailed (msg : String)
  /-- A raw vault or Prisma error rethrown unchanged. -/
  | upstream (e : VErr)
  /-- InternalServerErrorException wrapping a deployment failure
  (message, stderr tail, stdout tail). -/
  | provisioningFailure (message stderrTail stdoutTail : String)
  /-- InternalServerErrorException wrapping a removal failure
  (message, stderr tail). -/
  | removalFailure (message stderrTail : String)
deriving DecidableEq, Repr

/-- One vault (AWS Secrets Manager) API call, as issued by the service. -/
inductive VaultCall where
  | describe (secretId : String)
  | create (secretId : String)
  | enableRot (secretId : String) (lambdaArn : String) (afterDays : Nat)
  | deleteForce (secretId : String)
  | deleteSoft (secretId : String) (recoveryDays : Nat)
  | updateValue (secretId : String)
deriving DecidableEq, Repr

/-- Number of force-delete calls in a vault-call trace. -/
def countForceDeletes (tr : List VaultCall) : Nat :=
  (tr.filter fun c => match c with
    | VaultCall.deleteForce _ => true
    | _ => false).length

/-- The Project row fields read by the service (AWS Secrets Manager
credentials, region, rotation Lambda ARN). -/
structure Project where
  name : String := ""
  accessKeyId : Option String := none
  secretAccessKey : Option String := none
  region : Option String := none
  rotationLambdaArn : Option String := none
deriving DecidableEq, Repr

/-- The value returned by getProjectAwsConfig on success. -/
structure ProjectAwsConfig where
  accessKeyId : String
  secretAccessKey : String
  region : String
  rotationLambdaArn : Option String
deriving DecidableEq, Repr

/-- getProjectAwsConfig from aws-secrets-manager.service.ts: NotFound when
the project row is absent, BadRequest when any of the three credential
fields is missing, otherwise the config record. -/
def getProjectAwsConfig (project : Option Project) : Except SvcError ProjectAwsConfig :=
  match project with
  | none => Except.error (SvcError.notFound "Project not found")
  | some pr =>
    match pr.accessKeyId, pr.secretAccessKey, pr.region with
    | some a, some k, some r =>
        Except.ok { accessKeyId := a, secretAccessKey := k, region := r,
                    rotationLambdaArn := pr.rotationLambdaArn }
    | _, _, _ => Except.error (SvcError.projectNotConfigured pr.name)

/-- The local metadata record persisted by createSecret. -/
structure SecretRecord where
  id : String
  projectId : String
  name : String
  ty : SecretType
  awsSecretArn : String
  awsRegion : String
  enableRotation : Bool
  rotationLambdaArn : Option String
  description : Option String
deriving DecidableEq, Repr

/-- Parameters of createSecret. -/
structure CreateParams where
  projectId : String := ""
  name : String := ""
  ty : SecretType := SecretType.GENERIC_SECRET
  secretValue : String := ""
  description : Option String := none
  enableRotation : Bool := false
  rotationRuleDays : Option Nat := none
  awsRegion : Option String := none
deriving DecidableEq, Repr

/-- Call-site outcomes consumed by one createSecret run. Each field gives
the result of the corresponding remote call in source order. -/
structure CreateEnv where
  project : Option Project := none
  /-- Does prisma.secret.findUnique find a record with this name? -/
  localExisting : Bool := false
  /-- DescribeSecretCommand: ok means the secret exists upstream; error is
  what the call threw. -/
  describeResult : Except VErr Unit := Except.error { name := "ResourceNotFoundException" }
  /-- CreateSecretCommand: ok carries the new ARN. -/
  createResult : Except VErr String := Except.ok ""
  /-- RotateSecretCommand issued by enableRotation. -/
  rotateResult : Except VErr Unit := Except.ok ()
  /-- DeleteSecretCommand issued inside the rotation catch block. -/
  rotationRollbackDeleteResult : Except VErr Unit := Except.ok ()
  /-- prisma.secret.create. -/
  dbCreateResult : Except VErr Unit := Except.ok ()
  /-- DeleteSecretCommand issued inside the outer catch block (best effort). -/
  outerRollbackDeleteResult : Except VErr Unit := Except.ok ()
  /-- The id generated for the persisted record. -/
  newId : String := ""
deriving DecidableEq, Repr

/-- The record built by prisma.secret.create from the createSecret data. -/
def mkSecretRecord (p : CreateParams) (cfg : ProjectAwsConfig)
    (lambdaArn : Option String) (arn id : String) : SecretRecord :=
  { id := id, projectId := p.projectId, name := p.name, ty := p.ty,
    awsSecretArn := arn,
    awsRegion := p.awsRegion.getD cfg.region,
    enableRotation := p.enableRotation,
    rotationLambdaArn := if p.enableRotation then lambdaArn else none,
    description := p.description }

/-- The database-save phase of createSecret together with the outer catch
block of the source: on a Prisma error other than P2002 one best-effort
force delete is issued (its own failure swallowed), then the error is
rethrown unchanged. -/
def createSecretSavePhase (p : CreateParams) (cfg : ProjectAwsConfig)
    (lambdaArn : Option String) (env : CreateEnv) (arn : String) :
    Except SvcError SecretRecord × List VaultCall :=
  match env.dbCreateResult with
  | Except.ok _ => (Except.ok (mkSecretRecord p cfg lambdaArn arn env.newId), [])
  | Except.error e =>
    if e.code == some "P2002" then (Except.error (SvcError.upstream e), [])
    else (Except.error (SvcError.upstream e), [VaultCall.deleteForce p.name])

/-- The rotation phase of createSecret. On a rotation failure the source
issues an unguarded force delete and then throws a BadRequestException;
both that exception and a failure of the unguarded delete are caught again
by the outer catch block, which (since neither carries Prisma code P2002)
issues one more best-effort force delete before rethrowing. -/
def createSecretRotationPhase (p : CreateParams) (cfg : ProjectAwsConfig)
    (lambdaArn : Option String) (env : CreateEnv) (arn : String) :
    Except SvcError SecretRecord × List VaultCall :=
  if p.enableRotation then
    let rotCall := VaultCall.enableRot p.name (lambdaArn.getD "") (p.rotationRuleDays.getD 30)
    match env.rotateResult with
    | Except.ok _ =>
      let rest := createSecretSavePhase p cfg lambdaArn env arn
      (rest.fst, rotCall :: rest.snd)
    | Except.error re =>
      match env.rotationRollbackDeleteResult with
      | Except.ok _ =>
        (Except.error (SvcError.rotationFailed re.msg),
         [rotCall, VaultCall.deleteForce p.name, VaultCall.deleteForce p.name])
      | Except.error de =>
        if de.code == some "P2002" then
          (Except.error (SvcError.upstream de), [rotCall, VaultCall.deleteForce p.name])
        else
          (Except.error (SvcError.upstream de),
           [rotCall, VaultCall.deleteForce p.name, VaultCall.deleteForce p.name])
  else createSecretSavePhase p cfg lambdaArn env arn

/-- createSecret from aws-secrets-manager.service.ts: resolve the project
config, validate rotation prerequisites, check local name uniqueness,
probe the vault for an upstream record of the same name, create the
remote secret, optionally enable rotation (with rollback on failure),
persist the metadata (with rollback on a non-P2002 failure). The second
component is the ordered trace of vault calls issued. -/
def createSecret (p : CreateParams) (env : CreateEnv) :
    Except SvcError SecretRecord × List VaultCall :=
  match getProjectAwsConfig env.project with
  | Except.error e => (Except.error e, [])
  | Except.ok cfg =>
    let lambdaArn := if p.enableRotation then cfg.rotationLambdaArn else none
    if p.enableRotation && !(isRotationSupported p.ty) then
      (Except.error (SvcError.unsupportedType p.ty), [])
    else if p.enableRotation && lambdaArn.isNone then
      (Except.error SvcError.lambdaArnMissing, [])
    else if env.localExisting then
      (Except.error (SvcError.conflict "Secret name already exists"), [])
    else
      match env.describeResult with
      | Except.ok _ =>
        (Except.error (SvcError.conflict "AWS Secrets Manager already contains this secret"),
         [VaultCall.describe p.name])
      | Except.error e =>
        if e.name == "ResourceNotFoundException" then
          match env.createResult with
          | Except.error ce =>
            (Except.error (SvcError.upstream ce),
             [VaultCall.describe p.name, VaultCall.create p.name])
          | Except.ok arn =>
            let rest := createSecretRotationPhase p cfg lambdaArn env arn
            (rest.fst, VaultCall.describe p.name :: VaultCall.create p.name :: rest.snd)
        else (Except.error (SvcError.upstream e), [VaultCall.describe p.name])

/-- Is the result the unsupported-rotation-type error? -/
def isUnsupportedTypeError : Except SvcError SecretRecord → Bool
  | Except.error (SvcError.unsupportedType _) => true
  | _ => false

/-- A local Secret row as read and mutated by updateSecret and
deleteSecret. -/
structure StoredSecret where
  id : String := ""
  projectId : String := ""
  name : String := ""
  ty : SecretType := SecretType.GENERIC_SECRET
  description : Option String := none
  updatedAt : Nat := 0
deriving DecidableEq, Repr

/-- prisma.secret.findUnique on id over the local store. -/
def findSecret (store : List StoredSecret) (secretId : String) : Option StoredSecret :=
  store.find? (fun s => s.id == secretId)

/-- Call-site outcomes consumed by one updateSecret run. -/
structure UpdateEnv where
  project : Option Project := none
  /-- UpdateSecretCommand against the vault. -/
  vaultUpdateResult : Except VErr Unit := Except.ok ()
  /-- The timestamp written into updatedAt by the local update. -/
  now : Nat := 0
deriving DecidableEq, Repr

/-- The local mutation done by prisma.secret.update in updateSecret: the
description is overwritten only when one was supplied (an undefined field
is skipped by Prisma), and updatedAt is stamped. -/
def applySecretUpdate (newDescription : Option String) (now : Nat)
    (s : StoredSecret) : StoredSecret :=
  { s with
    description := if newDescription.isSome then newDescription else s.description,
    updatedAt := now }

/-- updateSecret from aws-secrets-manager.service.ts: load the local
record (NotFound if absent), resolve the project config, write the new
value to the vault first when one is supplied (a failure is wrapped in a
BadRequestException and aborts with no local mutation), then update the
local description and updatedAt. Returns the result, the resulting local
store, and the vault-call trace. -/
def updateSecret (store : List StoredSecret) (secretId : String)
    (newValue : Option String) (newDescription : Option String) (env : UpdateEnv) :
    Except SvcError StoredSecret × List StoredSecret × List VaultCall :=
  match findSecret store secretId with
  | none => (Except.error (SvcError.notFound secretId), store, [])
  | some secret =>
    match getProjectAwsConfig env.project with
    | Except.error e => (Except.error e, store, [])
    | Except.ok _ =>
      match newValue with
      | some _ =>
        match env.vaultUpdateResult with
        | Except.error e =>
          (Except.error (SvcError.updateFailed e.msg), store, [VaultCall.updateValue secret.name])
        | Except.ok _ =>
          (Except.ok (applySecretUpdate newDescription env.now secret),
           store.map (fun s => if s.id == secretId then
              applySecretUpdate newDescription env.now s else s),
           [VaultCall.updateValue secret.name])
      | none =>
        (Except.ok (applySecretUpdate newDescription env.now secret),
         store.map (fun s => if s.id == secretId then
            applySecretUpdate newDescription env.now s else s),
         [])

/-- Call-site outcomes consumed by one deleteSecret run. -/
structure DeleteEnv where
  project : Option Project := none
  /-- DeleteSecretCommand against the vault; any error (ResourceNotFound
  or otherwise) is swallowed by the source. -/
  vaultDeleteResult : Except VErr Unit := Except.ok ()
deriving DecidableEq, Repr

/-- deleteSecret from aws-secrets-manager.service.ts: load the local
record (NotFound if absent); try to resolve the project config, skipping
the remote delete when that fails; issue the remote delete (soft with a
30-day recovery window or forced) and swallow any failure of it; then
delete the local record unconditionally and return it. -/
def deleteSecret (store : List StoredSecret) (secretId : String)
    (forceDelete : Bool) (env : DeleteEnv) :
    Except SvcError StoredSecret × List StoredSecret × List VaultCall :=
  match findSecret store secretId with
  | none => (Except.error (SvcError.notFound secretId), store, [])
  | some secret =>
    let trace :=
      match getProjectAwsConfig env.project with
      | Except.error _ => []
      | Except.ok _ =>
        [if forceDelete then VaultCall.deleteForce secret.name
         else VaultCall.deleteSoft secret.name 30]
    (Except.ok secret, store.filter (fun s => !(s.id == secretId)), trace)

/-!
Rotation strategies (src/infrastructure/lambda/strategies and the MySQL
and generic strategies under src/unnamed). Only the finishSecret step is
embedded here; the commands each strategy sends are recorded as a trace.
-/

/-- One command sent by a rotation strategy (Secrets Manager, IAM). -/
inductive RotCmd where
  | updateVersionStage (secretId stage moveToVersionId removeFromVersionId : String)
  | iamUpdateKeyInactive (userName keyId : String)
  | iamDeleteKey (userName keyId : String)
deriving DecidableEq, Repr

/-- Is the command a version-stage move request? -/
def isStageMove : RotCmd → Bool
  | RotCmd.updateVersionStage _ _ _ _ => true
  | _ => false

/-- The currentSecret argument handed to finishSecret: the metadata of
the version currently staged AWSCURRENT, with its payload as a parsed
key/value record (the fields the AWS API key strategy reads). -/
structure CurrentSecretMeta where
  versionId : String := ""
  accessKeyId : Option String := none
  userName : Option String := none
deriving DecidableEq, Repr

/-- Outcomes of the IAM calls made by the AWS API key strategy while
cleaning up the superseded key. -/
structure IamEnv where
  updateKeyResult : Except VErr Unit := Except.ok ()
  deleteKeyResult : Except VErr Unit := Except.ok ()
deriving DecidableEq, Repr

/-- finishSecret of RdsPostgresStrategy (postgres.ts): one
UpdateSecretVersionStageCommand moving AWSCURRENT to the token version
and removing it from the prior current version. -/
def RdsPostgresStrategy.finishSecret (secretId token : String)
    (currentSecret : CurrentSecretMeta) : List RotCmd :=
  [RotCmd.updateVersionStage secretId "AWSCURRENT" token currentSecret.versionId]

/-- finishSecret of RdsMysqlStrategy (src/unnamed, MySQL strategy): same
single stage-move request. -/
def RdsMysqlStrategy.finishSecret (secretId token : String)
    (currentSecret : CurrentSecretMeta) : List RotCmd :=
  [RotCmd.updateVersionStage secretId "AWSCURRENT" token currentSecret.versionId]

/-- finishSecret of DocumentDbStrategy (documentdb.ts): same single
stage-move request. -/
def DocumentDbStrategy.finishSecret (secretId token : String)
    (currentSecret : CurrentSecretMeta) : List RotCmd :=
  [RotCmd.updateVersionStage secretId "AWSCURRENT" token currentSecret.versionId]

/-- finishSecret of GenericStrategy (src/unnamed, generic strategy): same
single stage-move request. -/
def GenericStrategy.finishSecret (secretId token : String)
    (currentSecret : CurrentSecretMeta) : List RotCmd :=
  [RotCmd.updateVersionStage secretId "AWSCURRENT" token currentSecret.versionId]

/-- finishSecret of AwsApiKeyStrategy (aws-api-key.ts): the same single
stage-move request, followed by a best-effort deactivate-then-delete of
the superseded IAM access key when the old payload carries both an
accessKeyId and a username (IAM failures are swallowed; a deactivation
failure skips the delete). -/
def AwsApiKeyStrategy.finishSecret (secretId token : String)
    (currentSecret : CurrentSecretMeta) (env : IamEnv) : List RotCmd :=
  RotCmd.updateVersionStage secretId "AWSCURRENT" token currentSecret.versionId ::
  (match currentSecret.accessKeyId, currentSecret.userName with
   | some keyId, some user =>
     RotCmd.iamUpdateKeyInactive user keyId ::
     (match env.updateKeyResult with
      | Except.ok _ => [RotCmd.iamDeleteKey user keyId]
      | Except.error _ => [])
   | _, _ => [])

/-!
Deployment state machine (deployRotationLambda, removeRotationLambda and
their background and internal handlers in aws-secrets-manager.service.ts).
-/

/-- A Project row as read and mutated by the deployment machinery. -/
structure ProjRecord where
  id : String := ""
  name : String := ""
  accessKeyId : Option String := none
  secretAccessKey : Option String := none
  region : Option String := none
  rotationLambdaArn : Option String := none
  deploymentStatus : String := "IDLE"
  deploymentMessage : Option String := none
deriving DecidableEq, Repr

/-- The in-process service state: the activeDeployments guard set and the
Project table. -/
structure DeployState where
  activeDeployments : List String := []
  projects : List ProjRecord := []
deriving DecidableEq, Repr

/-- prisma.project.findUnique on id. -/
def findProject (st : DeployState) (projectId : String) : Option ProjRecord :=
  st.projects.find? (fun pr => pr.id == projectId)

/-- updateDeploymentStatus: write status and message on the project row;
a failing write is swallowed by the source, so a missing row is a no-op. -/
def setDeploymentStatus (st : DeployState) (projectId status : String)
    (message : Option String) : DeployState :=
  { st with projects := st.projects.map (fun pr =>
      if pr.id == projectId then
        { pr with deploymentStatus := status, deploymentMessage := message }
      else pr) }

/-- Write the rotation Lambda ARN onto the project row. -/
def setProjectLambdaArn (st : DeployState) (projectId : String)
    (arn : Option String) : DeployState :=
  { st with projects := st.projects.map (fun pr =>
      if pr.id == projectId then { pr with rotationLambdaArn := arn } else pr) }

/-- Remove the project id from the activeDeployments guard set. -/
def releaseGuard (st : DeployState) (projectId : String) : DeployState :=
  { st with activeDeployments := st.activeDeployments.filter (fun x => !(x == projectId)) }

/-- One subprocess invocation issued by the deployment machinery. -/
inductive ExecCmd where
  | deployCmd (stage : String)
  | unlockCmd (stage : String)
  | removeCmd (stage : String)
deriving DecidableEq, Repr

/-- stdout and stderr of a successful subprocess run. -/
structure ExecOut where
  stdout : String := ""
  stderr : String := ""
deriving DecidableEq, Repr

/-- The rejection of a failed subprocess run. -/
structure ExecErr where
  message : String := ""
  stdout : String := ""
  stderr : String := ""
deriving DecidableEq, Repr

/-- Does the haystack contain the needle as a substring (the behaviour of
String.prototype.includes in the source)? -/
def includesSub (hay needle : String) : Bool :=
  decide (needle.toList <:+: hay.toList)

/-- The lock sentinel test of the source: the failed run has both
"Locked" and "sst unlock" in its stdout. -/
def lockSentinel (e : ExecErr) : Bool :=
  includesSub e.stdout "Locked" && includesSub e.stdout "sst unlock"

/-- Outcomes of the subprocess runs and of the ARN parse consumed by one
deploy or remove internal run. -/
structure ProvisionEnv where
  /-- The first run of the provisioning (or removal) command. -/
  firstExec : Except ExecErr ExecOut := Except.ok {}
  /-- The unlock command, when attempted. -/
  unlockExec : Except ExecErr ExecOut := Except.ok {}
  /-- The retried provisioning (or removal) command, when attempted. -/
  retryExec : Except ExecErr ExecOut := Except.ok {}
  /-- The result of matching the lambdaArn pattern on the final stdout
  (the regular-expression match of the source, supplied as an oracle). -/
  parsedArn : Option String := none
deriving DecidableEq, Repr

/-- The message of the InternalServerErrorException thrown when the ARN
pattern does not match the deploy output. -/
def arnParseFailureMsg : String :=
  "Deployment completed but Lambda ARN could not be parsed from output."

/-- The tail of _deployRotationLambdaInternal after a successful tool
run: parse the Lambda ARN from stdout (a parse failure is thrown and then
wrapped by the outer catch with empty stdout and stderr), persist it on
the project, and return it. -/
def deployParsePhase (projectId : String) (env : ProvisionEnv) (st : DeployState) :
    Except SvcError String × DeployState :=
  match env.parsedArn with
  | none => (Except.error (SvcError.provisioningFailure arnParseFailureMsg "" ""), st)
  | some arn => (Except.ok arn, setProjectLambdaArn st projectId (some arn))

/-- _deployRotationLambdaInternal: load the project (NotFound if absent),
require the three credential fields, run the provisioning tool; on a
failure whose stdout carries the lock sentinel, run unlock once and retry
the tool once; wrap any tool or parse failure in an
InternalServerErrorException carrying message, stderr and stdout; on
success parse and persist the Lambda ARN. -/
def deployRotationLambdaInternal (projectId : String) (env : ProvisionEnv)
    (st : DeployState) : Except SvcError String × DeployState × List ExecCmd :=
  match findProject st projectId with
  | none => (Except.error (SvcError.notFound projectId), st, [])
  | some pr =>
    if pr.accessKeyId.isNone || pr.secretAccessKey.isNone || pr.region.isNone then
      (Except.error (SvcError.projectNotConfigured pr.name), st, [])
    else
      match env.firstExec with
      | Except.ok _ =>
        let res := deployParsePhase projectId env st
        (res.fst, res.snd, [ExecCmd.deployCmd projectId])
      | Except.error e =>
        if lockSentinel e then
          match env.unlockExec with
          | Except.error eu =>
            (Except.error (SvcError.provisioningFailure eu.message eu.stderr eu.stdout), st,
             [ExecCmd.deployCmd projectId, ExecCmd.unlockCmd projectId])
          | Except.ok _ =>
            match env.retryExec with
            | Except.error e2 =>
              (Except.error (SvcError.provisioningFailure e2.message e2.stderr e2.stdout), st,
               [ExecCmd.deployCmd projectId, ExecCmd.unlockCmd projectId,
                ExecCmd.deployCmd projectId])
            | Except.ok _ =>
              let res := deployParsePhase projectId env st
              (res.fst, res.snd,
               [ExecCmd.deployCmd projectId, ExecCmd.unlockCmd projectId,
                ExecCmd.deployCmd projectId])
        else
          (Except.error (SvcError.provisioningFailure e.message e.stderr e.stdout), st,
           [ExecCmd.deployCmd projectId])

/-- _removeRotationLambdaInternal: load the project (NotFound if absent),
run the removal tool with the same lock-sentinel unlock-and-retry logic,
wrap failures in an InternalServerErrorException carrying message and
stderr, and clear the rotation Lambda ARN on success. -/
def removeRotationLambdaInternal (projectId : String) (env : ProvisionEnv)
    (st : DeployState) : Except SvcError Unit × DeployState × List ExecCmd :=
  match findProject st projectId with
  | none => (Except.error (SvcError.notFound projectId), st, [])
  | some _ =>
    match env.firstExec with
    | Except.ok _ =>
      (Except.ok (), setProjectLambdaArn st projectId none, [ExecCmd.removeCmd projectId])
    | Except.error e =>
      if lockSentinel e then
        match env.unlockExec with
        | Except.error eu =>
          (Except.error (SvcError.removalFailure eu.message eu.stderr), st,
           [ExecCmd.removeCmd projectId, ExecCmd.unlockCmd projectId])
        | Except.ok _ =>
          match env.retryExec with
          | Except.error e2 =>
            (Except.error (SvcError.removalFailure e2.message e2.stderr), st,
             [ExecCmd.removeCmd projectId, ExecCmd.unlockCmd projectId,
              ExecCmd.removeCmd projectId])
          | Except.ok _ =>
            (Except.ok (), setProjectLambdaArn st projectId none,
             [ExecCmd.removeCmd projectId, ExecCmd.unlockCmd projectId,
              ExecCmd.removeCmd projectId])
      else
        (Except.error (SvcError.removalFailure e.message e.stderr), st,
         [ExecCmd.removeCmd projectId])

/-- The message of every SvcError, as read by the background handlers. -/
def SvcError.message : SvcError → String
  | SvcError.notFound m => m
  | SvcError.conflict m => m
  | SvcError.unsupportedType _ => "Secret type does not support automatic rotation"
  | SvcError.lambdaArnMissing => "Lambda ARN is not configured in Project Settings"
  | SvcError.projectNotConfigured n => n
  | SvcError.rotationFailed m => m
  | SvcError.updateFailed m => m
  | SvcError.upstream e => e.msg
  | SvcError.provisioningFailure m _ _ => m
  | SvcError.removalFailure m _ => m

/-- deployRotationLambda (the public entry): Conflict while a transition
is active for the project, NotFound when the project is absent; otherwise
add the project to the guard set, set status DEPLOYING and return
accepted (the background task runs separately). -/
def deployRotationLambda (projectId : String) (st : DeployState) :
    Except SvcError Unit × DeployState :=
  if st.activeDeployments.contains projectId then
    (Except.error (SvcError.conflict "Deployment or removal already in progress"), st)
  else
    match findProject st projectId with
    | none => (Except.error (SvcError.notFound projectId), st)
    | some _ =>
      (Except.ok (),
       setDeploymentStatus
         { st with activeDeployments := projectId :: st.activeDeployments }
         projectId "DEPLOYING" none)

/-- removeRotationLambda (the public entry): same guard and validation,
status REMOVING. -/
def removeRotationLambda (projectId : String) (st : DeployState) :
    Except SvcError Unit × DeployState :=
  if st.activeDeployments.contains projectId then
    (Except.error (SvcError.conflict "Deployment or removal already in progress"), st)
  else
    match findProject st projectId with
    | none => (Except.error (SvcError.notFound projectId), st)
    | some _ =>
      (Except.ok (),
       setDeploymentStatus
         { st with activeDeployments := projectId :: st.activeDeployments }
         projectId "REMOVING" none)

/-- _deployRotationLambdaBackground: run the internal deployment, set the
persisted status to DEPLOYED on success or FAILED on any failure, and
release the guard entry in all cases. -/
def deployRotationLambdaBackground (projectId : String) (env : ProvisionEnv)
    (st : DeployState) : DeployState × List ExecCmd :=
  match deployRotationLambdaInternal projectId env st with
  | (Except.ok _, st2, tr) =>
    (releaseGuard
      (setDeploymentStatus st2 projectId "DEPLOYED" (some "Deployment successful"))
      projectId, tr)
  | (Except.error e, st2, tr) =>
    (releaseGuard
      (setDeploymentStatus st2 projectId "FAILED" (some e.message)) projectId, tr)

/-- _removeRotationLambdaBackground: run the internal removal, set status
IDLE on success or FAILED on any failure, and release the guard entry in
all cases. -/
def removeRotationLambdaBackground (projectId : String) (env : ProvisionEnv)
    (st : DeployState) : DeployState × List ExecCmd :=
  match removeRotationLambdaInternal projectId env st with
  | (Except.ok _, st2, tr) =>
    (releaseGuard
      (setDeploymentStatus st2 projectId "IDLE" (some "Removal successful"))
      projectId, tr)
  | (Except.error e, st2, tr) =>
    (releaseGuard
      (setDeploymentStatus st2 projectId "FAILED" (some e.message)) projectId, tr)

end AwsSecretsManager

namespace AwsSecretsManager

/-!
Concrete inputs used by witness and counterexample theorems.
-/

/-- Parameters used by the C1 witness: a plain create without rotation. -/
def dbFailParams : CreateParams := { name := "s1" }

/-- The Prisma error of the C1 witness (not a duplicate-key conflict). -/
def dbFailErr : VErr := { name := "PrismaError", code := some "P2003", msg := "db down" }

/-- The vault not-found rejection shared by several concrete runs. -/
def rnfErr : VErr := { name := "ResourceNotFoundException" }

/-- Environment of the C1 witness: remote creation succeeds, local save
fails with a non-P2002 error. -/
def dbFailEnv : CreateEnv :=
  { project := some { accessKeyId := some "a", secretAccessKey := some "k",
                      region := some "r" },
    dbCreateResult := Except.error dbFailErr }

/-- Parameters of the C2 runs: rotation requested. -/
def rotFailParams : CreateParams := { name := "s2", enableRotation := true }

/-- The rotation error of the C2 runs. -/
def rotFailRotErr : VErr := { name := "AccessDenied", msg := "rotation denied" }

/-- The rollback-delete error of the C2 counterexample. -/
def rotFailDelErr : VErr := { name := "InternalFailure", msg := "delete broke" }

/-- Environment of the C2 counterexample: the enable-rotation call fails
and the rollback force delete fails as well. -/
def rotFailEnvCE : CreateEnv :=
  { project := some { accessKeyId := some "a", secretAccessKey := some "k",
                      region := some "r", rotationLambdaArn := some "arn:l" },
    rotateResult := Except.error rotFailRotErr,
    rotationRollbackDeleteResult := Except.error rotFailDelErr }

/-- Environment of the C2 witness: the enable-rotation call fails and the
rollback force delete succeeds. -/
def rotFailEnvW : CreateEnv :=
  { project := some { accessKeyId := some "a", secretAccessKey := some "k",
                      region := some "r", rotationLambdaArn := some "arn:l" },
    rotateResult := Except.error rotFailRotErr }

/-- Environment of the C7 witness: rotation requested on a scope with no
rotation Lambda ARN. -/
def noArnEnv : CreateEnv :=
  { project := some { accessKeyId := some "a", secretAccessKey := some "k",
                      region := some "r", rotationLambdaArn := none } }

/-- Environment of the C8 witness: a record with the requested name is
already present locally. -/
def dupNameEnv : CreateEnv :=
  { project := some { accessKeyId := some "a", secretAccessKey := some "k",
                      region := some "r" },
    localExisting := true }

/-- The local record used by the C3 and C4 witnesses. -/
def storedW : StoredSecret :=
  { id := "id1", projectId := "p1", name := "s1",
    description := some "old", updatedAt := 7 }

/-- The store used by the C3 and C4 witnesses. -/
def storeW : List StoredSecret := [storedW]

/-- The vault rejection of the C3 witness. -/
def updFailErr : VErr := { name := "AccessDenied", msg := "update denied" }

/-- Environment of the C3 witness: the vault write fails. -/
def updFailEnv : UpdateEnv :=
  { project := some { accessKeyId := some "a", secretAccessKey := some "k",
                      region := some "r" },
    vaultUpdateResult := Except.error updFailErr, now := 99 }

/-- Environment of the C4 witness: scope-config resolution fails, so the
remote delete is skipped. -/
def delNoCfgEnv : DeleteEnv := { project := none }

/-- The project row used by the deployment witnesses. -/
def projW : ProjRecord :=
  { id := "p1", accessKeyId := some "a", secretAccessKey := some "k",
    region := some "r" }

/-- A state with an active transition for project p1 (C6 witness). -/
def busyStateW : DeployState :=
  { activeDeployments := ["p1"], projects := [projW] }

/-- A state with no active transition for project p1. -/
def idleStateW : DeployState := { projects := [projW] }

/-- The p1 row after the failing background run of the C6 witness. -/
def failedProjW : ProjRecord :=
  { projW with deploymentStatus := "FAILED", deploymentMessage := some "unlock failed" }

/-- The lock-sentinel exec failure shared by the C9 runs. -/
def lockedExecErr : ExecErr :=
  { message := "deploy failed",
    stdout := "Resource is Locked. Run sst unlock to continue." }

/-- Environment of the C9 counterexample: the first run hits the lock
sentinel and the unlock command itself fails. -/
def lockEnvCE : ProvisionEnv :=
  { firstExec := Except.error lockedExecErr,
    unlockExec := Except.error { message := "unlock failed", stderr := "unlock boom" } }

/-- Environment of the C9 witness: the first run hits the lock sentinel,
the unlock succeeds, and the retry fails. -/
def lockEnvW : ProvisionEnv :=
  { firstExec := Except.error lockedExecErr,
    retryExec := Except.error { message := "retry failed", stdout := "ro", stderr := "rs" } }

/-!
Helper lemmas.
-/

theorem isRotationSupported_eq_true (t : SecretType) : isRotationSupported t = true := by
  cases t <;> rfl

theorem savePhase_not_unsupported (p : CreateParams) (cfg : ProjectAwsConfig)
    (lam : Option String) (env : CreateEnv) (arn : String) :
    isUnsupportedTypeError (createSecretSavePhase p cfg lam env arn).fst = false := by
  unfold createSecretSavePhase
  rcases env.dbCreateResult with e | v
  · by_cases h : e.code == some "P2002" <;> simp [h, isUnsupportedTypeError]
  · simp [isUnsupportedTypeError]

theorem rotationPhase_not_unsupported (p : CreateParams) (cfg : ProjectAwsConfig)
    (lam : Option String) (env : CreateEnv) (arn : String) :
    isUnsupportedTypeError (createSecretRotationPhase p cfg lam env arn).fst = false := by
  unfold createSecretRotationPhase
  by_cases hrot : p.enableRotation
  · simp only [hrot, if_true]
    rcases env.rotateResult with re | v
    · rcases env.rotationRollbackDeleteResult with de | u
      · by_cases h : de.code == some "P2002" <;> simp [h, isUnsupportedTypeError]
      · simp [isUnsupportedTypeError]
    · simpa using savePhase_not_unsupported p cfg lam env arn
  · simp only [hrot, if_false]
    exact savePhase_not_unsupported p cfg lam env arn

theorem cfgError_not_unsupported (proj : Option Project) (e : SvcError)
    (h : getProjectAwsConfig proj = Except.error e) :
    isUnsupportedTypeError (Except.error e) = false := by
  rcases proj with _ | pr
  · simp only [getProjectAwsConfig, Except.error.injEq] at h
    rw [← h]; rfl
  · rcases ha : pr.accessKeyId with _ | a <;> rcases hk : pr.secretAccessKey with _ | k <;>
      rcases hr : pr.region with _ | r <;>
      simp only [getProjectAwsConfig, ha, hk, hr, Except.error.injEq] at h <;>
      first
        | (rw [← h]; rfl)
        | simp at h

theorem contains_filter_ne (l : List String) (pid : String) :
    (l.filter (fun x => !(x == pid))).contains pid = false := by
  induction l with
  | nil => rfl
  | cons a l ih =>
    rw [List.filter_cons]
    by_cases h : a = pid
    · simp [h, ih]
    · have hb : (a == pid) = false := beq_eq_false_iff_ne.mpr h
      have hb2 : (pid == a) = false := beq_eq_false_iff_ne.mpr (Ne.symm h)
      simp [hb, hb2, ih, Ne.symm h]

theorem releaseGuard_contains_false (st : DeployState) (pid : String) :
    (releaseGuard st pid).activeDeployments.contains pid = false :=
  contains_filter_ne st.activeDeployments pid

theorem setDeploymentStatus_mem_status (st : DeployState) (pid status : String)
    (msg : Option String) (r : ProjRecord)
    (hr : r ∈ (setDeploymentStatus st pid status msg).projects)
    (hid : r.id = pid) : r.deploymentStatus = status := by
  simp only [setDeploymentStatus, List.mem_map] at hr
  obtain ⟨a, _, rfl⟩ := hr
  by_cases h : a.id == pid
  · simp [h]
  · simp only [h, if_neg, Bool.false_eq_true, not_false_eq_true, ite_false] at hid ⊢
    exact absurd (beq_iff_eq.mpr hid) (by simpa using h)

theorem find_filter_none (store : List StoredSecret) (secretId : String) :
    findSecret (store.filter (fun x => !(x.id == secretId))) secretId = none := by
  unfold findSecret
  induction store with
  | nil => rfl
  | cons a l ih =>
    rw [List.filter_cons]
    by_cases h : a.id = secretId
    · have hb : (a.id == secretId) = true := beq_iff_eq.mpr h
      simp [hb, ih]
    · have hb : (a.id == secretId) = false := beq_eq_false_iff_ne.mpr h
      simp [hb, List.find?, ih]

/-!
Claim theorems.
-/

/-- Claim C1: when the remote vault secret was created but the local
metadata persistence fails with an error that is not a duplicate-key
conflict (Prisma code P2002), createSecret issues exactly one force
delete of the just-created remote secret and surfaces the persistence
error unchanged; on a P2002 conflict no rollback delete is issued. -/
theorem createSecret_dbPersistFailure_rollback
    (p : CreateParams) (env : CreateEnv) (cfg : ProjectAwsConfig)
    (de e : VErr) (arn : String)
    (hcfg : getProjectAwsConfig env.project = Except.ok cfg)
    (hlam : p.enableRotation = true → cfg.rotationLambdaArn.isSome = true)
    (hloc : env.localExisting = false)
    (hdesc : env.describeResult = Except.error de)
    (hdn : de.name = "ResourceNotFoundException")
    (hcr : env.createResult = Except.ok arn)
    (hrot : p.enableRotation = true → env.rotateResult = Except.ok ())
    (hdb : env.dbCreateResult = Except.error e) :
    ((e.code == some "P2002") = false →
       (createSecret p env).fst = Except.error (SvcError.upstream e) ∧
       countForceDeletes (createSecret p env).snd = 1) ∧
    ((e.code == some "P2002") = true →
       (createSecret p env).fst = Except.error (SvcError.upstream e) ∧
       countForceDeletes (createSecret p env).snd = 0) := by
  unfold createSecret createSecretRotationPhase createSecretSavePhase
  rw [hcfg]
  by_cases hre : p.enableRotation
  · have hsome := hlam hre
    have hn : cfg.rotationLambdaArn.isNone = false := by
      cases hx : cfg.rotationLambdaArn
      · rw [hx] at hsome; simp at hsome
      · rfl
    by_cases hc : (e.code == some "P2002") = true
    · simp [isRotationSupported_eq_true, hre, hn, hloc, hdesc, hdn, hcr, hrot hre, hdb, hc,
        countForceDeletes]
    · simp only [Bool.not_eq_true] at hc
      simp [isRotationSupported_eq_true, hre, hn, hloc, hdesc, hdn, hcr, hrot hre, hdb, hc,
        countForceDeletes]
  · simp only [Bool.not_eq_true] at hre
    by_cases hc : (e.code == some "P2002") = true
    · simp [isRotationSupported_eq_true, hre, hloc, hdesc, hdn, hcr, hdb, hc, countForceDeletes]
    · simp only [Bool.not_eq_true] at hc
      simp [isRotationSupported_eq_true, hre, hloc, hdesc, hdn, hcr, hdb, hc, countForceDeletes]

/-- Witness for C1: a concrete run in which the vault create succeeds,
the local save fails with Prisma code P2003, the surfaced error is the
persistence error, and exactly one force delete is issued. -/
theorem createSecret_dbPersistFailure_rollback_witness :
    (createSecret dbFailParams dbFailEnv).fst = Except.error (SvcError.upstream dbFailErr) ∧
    countForceDeletes (createSecret dbFailParams dbFailEnv).snd = 1 :=
  (createSecret_dbPersistFailure_rollback dbFailParams dbFailEnv
    { accessKeyId := "a", secretAccessKey := "k", region := "r", rotationLambdaArn := none }
    rnfErr dbFailErr ""
    rfl (by intro h; exact absurd h (by decide)) rfl rfl rfl rfl
    (by intro h; exact absurd h (by decide)) rfl).1 (by decide)

/-- Claim C2 counterexample: with rotation enabled, when the
enable-rotation call fails and the rollback force delete also fails, the
error surfaced by createSecret is the rollback-delete failure, not the
rotation error — the rollback failure does mask the original error. -/
theorem createSecret_rotationRollbackMasks_counterexample :
    createSecret rotFailParams rotFailEnvCE =
      (Except.error (SvcError.upstream rotFailDelErr),
       [VaultCall.describe "s2", VaultCall.create "s2",
        VaultCall.enableRot "s2" "arn:l" 30,
        VaultCall.deleteForce "s2", VaultCall.deleteForce "s2"]) := by
  rfl

/-- Claim C2 as amended: with rotation enabled, when the enable-rotation
call fails, createSecret force-deletes the just-created remote secret; if
that rollback delete succeeds the surfaced error is the (wrapped)
rotation error, and if the rollback delete itself fails, the delete
failure replaces the rotation error and is surfaced instead. -/
theorem createSecret_rotationFailure_rollback
    (p : CreateParams) (env : CreateEnv) (cfg : ProjectAwsConfig)
    (de re : VErr) (arn : String)
    (hcfg : getProjectAwsConfig env.project = Except.ok cfg)
    (hre : p.enableRotation = true)
    (hlam : cfg.rotationLambdaArn.isSome = true)
    (hloc : env.localExisting = false)
    (hdesc : env.describeResult = Except.error de)
    (hdn : de.name = "ResourceNotFoundException")
    (hcr : env.createResult = Except.ok arn)
    (hrot : env.rotateResult = Except.error re) :
    (env.rotationRollbackDeleteResult = Except.ok () →
       (createSecret p env).fst = Except.error (SvcError.rotationFailed re.msg) ∧
       1 ≤ countForceDeletes (createSecret p env).snd) ∧
    (∀ derr, env.rotationRollbackDeleteResult = Except.error derr →
       (createSecret p env).fst = Except.error (SvcError.upstream derr)) := by
  unfold createSecret createSecretRotationPhase
  rw [hcfg]
  have hn : cfg.rotationLambdaArn.isNone = false := by
    cases hx : cfg.rotationLambdaArn
    · rw [hx] at hlam; simp at hlam
    · rfl
  constructor
  · intro hok
    simp [isRotationSupported_eq_true, hre, hn, hloc, hdesc, hdn, hcr, hrot, hok,
      countForceDeletes]
  · intro derr hderr
    by_cases hc : (derr.code == some "P2002") = true
    · simp [isRotationSupported_eq_true, hre, hn, hloc, hdesc, hdn, hcr, hrot, hderr, hc]
    · simp only [Bool.not_eq_true] at hc
      simp [isRotationSupported_eq_true, hre, hn, hloc, hdesc, hdn, hcr, hrot, hderr, hc]

/-- Witness for the amended C2: a concrete run in which the
enable-rotation call fails, the rollback delete succeeds, the surfaced
error is the wrapped rotation error, and at least one force delete was
issued. -/
theorem createSecret_rotationFailure_rollback_witness :
    (createSecret rotFailParams rotFailEnvW).fst =
      Except.error (SvcError.rotationFailed "rotation denied") ∧
    1 ≤ countForceDeletes (createSecret rotFailParams rotFailEnvW).snd :=
  (createSecret_rotationFailure_rollback rotFailParams rotFailEnvW
    { accessKeyId := "a", secretAccessKey := "k", region := "r",
      rotationLambdaArn := some "arn:l" }
    rnfErr rotFailRotErr ""
    rfl rfl rfl rfl rfl rfl rfl rfl).1 rfl

/-- Claim C7: createSecret with rotation enabled on a scope whose config
has no rotation Lambda ARN fails with the missing-Lambda configuration
error and issues zero vault calls, before the existence probe and every
other vault interaction. -/
theorem createSecret_missingLambdaArn_failFast
    (p : CreateParams) (env : CreateEnv) (cfg : ProjectAwsConfig)
    (hcfg : getProjectAwsConfig env.project = Except.ok cfg)
    (harn : cfg.rotationLambdaArn = none)
    (hre : p.enableRotation = true) :
    createSecret p env = (Except.error SvcError.lambdaArnMissing, []) := by
  unfold createSecret
  rw [hcfg]
  simp [hre, harn, isRotationSupported_eq_true]

/-- Witness for C7: a concrete rotation-enabled create on a scope with no
rotation Lambda ARN fails fast with an empty vault-call trace. -/
theorem createSecret_missingLambdaArn_failFast_witness :
    createSecret rotFailParams noArnEnv = (Except.error SvcError.lambdaArnMissing, []) :=
  createSecret_missingLambdaArn_failFast rotFailParams noArnEnv
    { accessKeyId := "a", secretAccessKey := "k", region := "r", rotationLambdaArn := none }
    rfl rfl rfl

/-- Claim C8: when a secret of the requested name already exists in the
local store, createSecret fails with Conflict and issues no vault calls
at all (in particular no remote mutation). -/
theorem createSecret_duplicateName_conflict
    (p : CreateParams) (env : CreateEnv) (cfg : ProjectAwsConfig)
    (hcfg : getProjectAwsConfig env.project = Except.ok cfg)
    (hlam : p.enableRotation = true → cfg.rotationLambdaArn.isSome = true)
    (hloc : env.localExisting = true) :
    createSecret p env = (Except.error (SvcError.conflict "Secret name already exists"), []) := by
  unfold createSecret
  rw [hcfg]
  by_cases hre : p.enableRotation
  · have hsome := hlam hre
    have hn : cfg.rotationLambdaArn.isNone = false := by
      cases hx : cfg.rotationLambdaArn
      · rw [hx] at hsome; simp at hsome
      · rfl
    simp [isRotationSupported_eq_true, hre, hn, hloc]
  · simp only [Bool.not_eq_true] at hre
    simp [isRotationSupported_eq_true, hre, hloc]

/-- Witness for C8: a concrete create of an already-present name fails
with Conflict and an empty vault-call trace. -/
theorem createSecret_duplicateName_conflict_witness :
    createSecret dbFailParams dupNameEnv =
      (Except.error (SvcError.conflict "Secret name already exists"), []) :=
  createSecret_duplicateName_conflict dbFailParams dupNameEnv
    { accessKeyId := "a", secretAccessKey := "k", region := "r", rotationLambdaArn := none }
    rfl (by intro h; exact absurd h (by decide)) rfl

/-- Claim C10: isRotationSupported returns true for every member of the
SecretType enum, so the unsupported-rotation-type error branch of
createSecret is unreachable: no run of createSecret, over any parameters
and any call outcomes, ever returns that error. -/
theorem rotationSupport_total_unsupportedBranch_unreachable :
    (∀ t : SecretType, isRotationSupported t = true) ∧
    (∀ (p : CreateParams) (env : CreateEnv),
       isUnsupportedTypeError (createSecret p env).fst = false) := by
  refine ⟨isRotationSupported_eq_true, ?_⟩
  intro p env
  unfold createSecret
  rcases hc : getProjectAwsConfig env.project with e | cfg
  · simpa using cfgError_not_unsupported env.project e hc
  · simp only [isRotationSupported_eq_true, Bool.not_true, Bool.and_false, if_false,
      Bool.false_eq_true, ite_false]
    by_cases h2 : (p.enableRotation &&
        (if p.enableRotation then cfg.rotationLambdaArn else none).isNone) = true
    · simp [h2, isUnsupportedTypeError]
    · simp only [Bool.not_eq_true] at h2
      simp only [h2, Bool.false_eq_true, ite_false]
      by_cases h3 : env.localExisting
      · simp [h3, isUnsupportedTypeError]
      · simp only [h3, Bool.false_eq_true, ite_false]
        rcases hd : env.describeResult with de | u
        · by_cases h4 : (de.name == "ResourceNotFoundException") = true
          · simp only [h4, if_true, ite_true]
            rcases hcr : env.createResult with ce | arn
            · simp [isUnsupportedTypeError]
            · simpa using rotationPhase_not_unsupported p cfg
                (if p.enableRotation then cfg.rotationLambdaArn else none) env arn
          · simp only [Bool.not_eq_true] at h4
            simp [h4, isUnsupportedTypeError]
        · simp [isUnsupportedTypeError]

/-- Claim C3: when updateSecret is given a new secret value and the vault
write fails, the operation aborts with the wrapped update error, the
vault write was the only call issued, and the local store — descriptions,
timestamps, every field of every record — is left completely unchanged. -/
theorem updateSecret_vaultWriteFailure_noLocalChange
    (store : List StoredSecret) (secretId v : String) (nd : Option String)
    (env : UpdateEnv) (s : StoredSecret) (cfg : ProjectAwsConfig) (e : VErr)
    (hf : findSecret store secretId = some s)
    (hcfg : getProjectAwsConfig env.project = Except.ok cfg)
    (hv : env.vaultUpdateResult = Except.error e) :
    updateSecret store secretId (some v) nd env =
      (Except.error (SvcError.updateFailed e.msg), store, [VaultCall.updateValue s.name]) := by
  unfold updateSecret
  rw [hf, hcfg, hv]

/-- Witness for C3: a concrete update whose vault write fails leaves the
store exactly as it was and surfaces the wrapped error. -/
theorem updateSecret_vaultWriteFailure_noLocalChange_witness :
    updateSecret storeW "id1" (some "newval") (some "newdesc") updFailEnv =
      (Except.error (SvcError.updateFailed "update denied"), storeW,
       [VaultCall.updateValue "s1"]) :=
  updateSecret_vaultWriteFailure_noLocalChange storeW "id1" "newval" (some "newdesc")
    updFailEnv storedW
    { accessKeyId := "a", secretAccessKey := "k", region := "r", rotationLambdaArn := none }
    updFailErr rfl rfl rfl

/-- Claim C4: deleteSecret on an existing local record always succeeds
and always removes the local record, whatever the scope config and the
remote delete outcome do (a vault not-found rejection included); when
scope-config resolution fails the remote delete is skipped entirely. -/
theorem deleteSecret_localAlwaysDeleted
    (store : List StoredSecret) (secretId : String) (force : Bool)
    (env : DeleteEnv) (s : StoredSecret)
    (hf : findSecret store secretId = some s) :
    (deleteSecret store secretId force env).fst = Except.ok s ∧
    (deleteSecret store secretId force env).snd.fst =
      store.filter (fun x => !(x.id == secretId)) ∧
    findSecret (deleteSecret store secretId force env).snd.fst secretId = none ∧
    (∀ err, getProjectAwsConfig env.project = Except.error err →
       (deleteSecret store secretId force env).snd.snd = []) := by
  unfold deleteSecret
  rw [hf]
  refine ⟨rfl, rfl, find_filter_none store secretId, ?_⟩
  intro err herr
  simp [herr]

/-- Witness for C4: a concrete delete whose scope config cannot be
resolved (and whose remote delete is therefore skipped) still removes the
local record and returns it. -/
theorem deleteSecret_localAlwaysDeleted_witness :
    (deleteSecret storeW "id1" false delNoCfgEnv).fst = Except.ok storedW ∧
    findSecret (deleteSecret storeW "id1" false delNoCfgEnv).snd.fst "id1" = none ∧
    (deleteSecret storeW "id1" false delNoCfgEnv).snd.snd = [] := by
  have h := deleteSecret_localAlwaysDeleted storeW "id1" false delNoCfgEnv storedW rfl
  exact ⟨h.1, h.2.2.1, h.2.2.2 (SvcError.notFound "Project not found") rfl⟩

/-- Claim C5: the finishSecret step of every rotation strategy —
RDS/Postgres, RDS/MySQL, DocumentDB, AWS API key, generic — performs the
promotion via exactly one version-stage move request, naming the cycle
token as the move-to version and the prior current version as the
remove-from version, never as two separate stage writes. -/
theorem finishSecret_singleStageMove
    (secretId token : String) (cur : CurrentSecretMeta) (env : IamEnv) :
    (RdsPostgresStrategy.finishSecret secretId token cur).filter isStageMove =
      [RotCmd.updateVersionStage secretId "AWSCURRENT" token cur.versionId] ∧
    (RdsMysqlStrategy.finishSecret secretId token cur).filter isStageMove =
      [RotCmd.updateVersionStage secretId "AWSCURRENT" token cur.versionId] ∧
    (DocumentDbStrategy.finishSecret secretId token cur).filter isStageMove =
      [RotCmd.updateVersionStage secretId "AWSCURRENT" token cur.versionId] ∧
    (GenericStrategy.finishSecret secretId token cur).filter isStageMove =
      [RotCmd.updateVersionStage secretId "AWSCURRENT" token cur.versionId] ∧
    (AwsApiKeyStrategy.finishSecret secretId token cur env).filter isStageMove =
      [RotCmd.updateVersionStage secretId "AWSCURRENT" token cur.versionId] := by
  refine ⟨rfl, rfl, rfl, rfl, ?_⟩
  unfold AwsApiKeyStrategy.finishSecret
  rcases cur.accessKeyId with _ | keyId <;> rcases cur.userName with _ | user <;>
    rcases env.updateKeyResult with f | u <;>
    simp [isStageMove, List.filter]

/-- Claim C6: a deploy or remove call made while a transition is already
active for the scope fails with Conflict and leaves the state untouched;
whenever the deployment background task completes, every project row with
that id carries a terminal status (DEPLOYED or FAILED, never DEPLOYING),
and the per-scope guard entry is released in all cases, for the removal
background task as well. -/
theorem deployment_exclusivity_terminal_status :
    (∀ (pid : String) (st : DeployState), st.activeDeployments.contains pid = true →
       deployRotationLambda pid st =
         (Except.error (SvcError.conflict "Deployment or removal already in progress"), st) ∧
       removeRotationLambda pid st =
         (Except.error (SvcError.conflict "Deployment or removal already in progress"), st)) ∧
    (∀ (pid : String) (env : ProvisionEnv) (st : DeployState) (r : ProjRecord),
       r ∈ (deployRotationLambdaBackground pid env st).fst.projects →
       r.id = pid →
       r.deploymentStatus = "DEPLOYED" ∨ r.deploymentStatus = "FAILED") ∧
    (∀ (pid : String) (env : ProvisionEnv) (st : DeployState),
       (deployRotationLambdaBackground pid env st).fst.activeDeployments.contains pid = false ∧
       (removeRotationLambdaBackground pid env st).fst.activeDeployments.contains pid = false) := by
  refine ⟨?_, ?_, ?_⟩
  · intro pid st h
    constructor <;> simp only [deployRotationLambda, removeRotationLambda, h, ite_true]
  · intro pid env st r hr hid
    unfold deployRotationLambdaBackground at hr
    rcases hint : deployRotationLambdaInternal pid env st with ⟨res, st2, tr⟩
    rw [hint] at hr
    rcases res with e | arn
    · exact Or.inr (setDeploymentStatus_mem_status st2 pid "FAILED" _ r hr hid)
    · exact Or.inl (setDeploymentStatus_mem_status st2 pid "DEPLOYED" _ r hr hid)
  · intro pid env st
    constructor
    · unfold deployRotationLambdaBackground
      rcases deployRotationLambdaInternal pid env st with ⟨res, st2, tr⟩
      rcases res with e | arn <;> exact releaseGuard_contains_false _ pid
    · unfold removeRotationLambdaBackground
      rcases removeRotationLambdaInternal pid env st with ⟨res, st2, tr⟩
      rcases res with e | u <;> exact releaseGuard_contains_false _ pid

/-- Witness for C6: with an active transition for p1, a concrete deploy
call returns Conflict unchanged; after a concrete failing background run
the guard entry for p1 is released and the p1 row holds a terminal
status. -/
theorem deployment_exclusivity_terminal_status_witness :
    deployRotationLambda "p1" busyStateW =
      (Except.error (SvcError.conflict "Deployment or removal already in progress"),
       busyStateW) ∧
    (deployRotationLambdaBackground "p1" lockEnvCE idleStateW).fst.activeDeployments.contains
      "p1" = false ∧
    (failedProjW.deploymentStatus = "DEPLOYED" ∨
     failedProjW.deploymentStatus = "FAILED") := by
  refine ⟨(deployment_exclusivity_terminal_status.1 "p1" busyStateW rfl).1,
    (deployment_exclusivity_terminal_status.2.2 "p1" lockEnvCE idleStateW).1,
    deployment_exclusivity_terminal_status.2.1 "p1" lockEnvCE idleStateW failedProjW ?_ rfl⟩
  decide

/-- Claim C9 counterexample: a concrete deploy run in which the tool
fails with the lock sentinel in its output and the unlock command itself
fails. The engine issues the unlock but never retries the provisioning
command — the trace holds no second deploy invocation, against the
claimed "retries the provisioning command exactly once" — and the
surfaced failure is the unlock failure. -/
theorem lockRetry_unlockFailure_counterexample :
    deployRotationLambdaInternal "p1" lockEnvCE idleStateW =
      (Except.error (SvcError.provisioningFailure "unlock failed" "unlock boom" ""),
       idleStateW,
       [ExecCmd.deployCmd "p1", ExecCmd.unlockCmd "p1"]) := by
  decide

/-- Claim C9 as amended: on a tool failure carrying the lock sentinel,
the deploy and remove engines invoke the unlock exactly once; if the
unlock succeeds they retry the provisioning command exactly once,
surfacing the retry failure if it also fails; if the unlock itself fails,
its failure is surfaced with no retry; a tool failure without the
sentinel is surfaced immediately with no unlock and no retry. -/
theorem lockRetry_unlockOnce_retryOnce
    (pid : String) (env : ProvisionEnv) (st : DeployState) (pr : ProjRecord) (e : ExecErr)
    (hp : findProject st pid = some pr)
    (hkey : pr.accessKeyId.isNone = false)
    (hsec : pr.secretAccessKey.isNone = false)
    (hreg : pr.region.isNone = false)
    (hfe : env.firstExec = Except.error e) :
    (lockSentinel e = false →
       deployRotationLambdaInternal pid env st =
         (Except.error (SvcError.provisioningFailure e.message e.stderr e.stdout), st,
          [ExecCmd.deployCmd pid]) ∧
       removeRotationLambdaInternal pid env st =
         (Except.error (SvcError.removalFailure e.message e.stderr), st,
          [ExecCmd.removeCmd pid])) ∧
    (lockSentinel e = true →
       (∀ eu, env.unlockExec = Except.error eu →
          deployRotationLambdaInternal pid env st =
            (Except.error (SvcError.provisioningFailure eu.message eu.stderr eu.stdout), st,
             [ExecCmd.deployCmd pid, ExecCmd.unlockCmd pid]) ∧
          removeRotationLambdaInternal pid env st =
            (Except.error (SvcError.removalFailure eu.message eu.stderr), st,
             [ExecCmd.removeCmd pid, ExecCmd.unlockCmd pid])) ∧
       (∀ uo, env.unlockExec = Except.ok uo →
          (deployRotationLambdaInternal pid env st).snd.snd =
            [ExecCmd.deployCmd pid, ExecCmd.unlockCmd pid, ExecCmd.deployCmd pid] ∧
          (removeRotationLambdaInternal pid env st).snd.snd =
            [ExecCmd.removeCmd pid, ExecCmd.unlockCmd pid, ExecCmd.removeCmd pid] ∧
          (∀ e2, env.retryExec = Except.error e2 →
             (deployRotationLambdaInternal pid env st).fst =
               Except.error (SvcError.provisioningFailure e2.message e2.stderr e2.stdout) ∧
             (removeRotationLambdaInternal pid env st).fst =
               Except.error (SvcError.removalFailure e2.message e2.stderr)))) := by
  unfold deployRotationLambdaInternal removeRotationLambdaInternal
  rw [hp, hfe]
  constructor
  · intro hs
    constructor <;> simp [hkey, hsec, hreg, hs]
  · intro hs
    constructor
    · intro eu heu
      constructor <;> simp [hkey, hsec, hreg, hs, heu]
    · intro uo huo
      refine ⟨?_, ?_, ?_⟩
      · rcases hre : env.retryExec with e2 | ro <;>
          simp [hkey, hsec, hreg, hs, huo, hre, deployParsePhase]
      · rcases hre : env.retryExec with e2 | ro <;>
          simp [hkey, hsec, hreg, hs, huo, hre]
      · intro e2 hre
        constructor <;> simp [hkey, hsec, hreg, hs, huo, hre]

/-- Witness for the amended C9: a concrete deploy run hitting the lock
sentinel with a successful unlock issues the unlock and exactly one
retry, and surfaces the failing retry error. -/
theorem lockRetry_unlockOnce_retryOnce_witness :
    (deployRotationLambdaInternal "p1" lockEnvW idleStateW).snd.snd =
      [ExecCmd.deployCmd "p1", ExecCmd.unlockCmd "p1", ExecCmd.deployCmd "p1"] ∧
    (deployRotationLambdaInternal "p1" lockEnvW idleStateW).fst =
      Except.error (SvcError.provisioningFailure "retry failed" "rs" "ro") := by
  have h := ((lockRetry_unlockOnce_retryOnce "p1" lockEnvW idleStateW projW lockedExecErr
    rfl rfl rfl rfl rfl).2 (by decide)).2 {} rfl
  exact ⟨h.1, (h.2.2 _ rfl).1⟩

end AwsSecretsManager
